import Mathlib

/-!
Shallow embedding of the Cartographic Framing & Attribute-Color Resolution
Engine of `professional_map_generator_optimized.py` (class
`FixedOptimizedMapGenerator`), together with theorems settling the claims
about it.

Numeric values are modelled over `ℚ`; Python machine floats are treated as
exact rationals (no claim here depends on binary floating-point rounding).
Feature geometries are modelled as their vertex lists in the working
projected CRS; reprojection itself is performed by an external library
(`pyproj`), so where its numeric output matters it enters the model as data.
-/

namespace MapGen

/-- A Python attribute value as it occurs in a GeoDataFrame column or in a
filter request: an integer, a float (modelled as an exact rational), or a
string. -/
inductive PyVal where
  | int (n : ℤ)
  | float (q : ℚ)
  | str (s : String)
deriving DecidableEq, Repr

/-- The pandas dtype of an attribute column, as tested by
`'int' in str(column_dtype)` / `'float' in str(column_dtype)` in
`load_data_with_attribute_filter` (source lines 267-272). -/
inductive Dtype where
  | intType
  | floatType
  | objectType
deriving DecidableEq, Repr

/-- Python `str(v)`. Integers print in decimal with a leading minus sign for
negatives; strings print as themselves. For a float the decimal
representation is modelled by the canonical rational rendering (binary
floating-point shortest-repr printing is outside the embedding). -/
def pyStr : PyVal → String
  | .int n => toString n
  | .float q => toString q
  | .str s => s

/-- Numeric value of a list of decimal digit characters. -/
def digitsVal (l : List Char) : ℕ :=
  l.foldl (fun a c => 10 * a + (c.toNat - 48)) 0

/-- Split a character list at the first '.', returning the part before it
and, when a dot is present, the part after it. -/
def splitAtDot : List Char → List Char × Option (List Char)
  | [] => ([], none)
  | c :: r =>
    if c = '.' then ([], some r)
    else
      let p := splitAtDot r
      (c :: p.1, p.2)

/-- Python `float(s)` on a decimal literal: optional sign, digits, optional
fractional part (at least one digit somewhere). Exotic accepted forms
(exponents, `inf`, `nan`, underscores, surrounding whitespace) are outside
the scope of the claims and parse as failure here. -/
def parseDecimal (s : String) : Option ℚ :=
  let cs := s.toList
  let sgnRest : ℤ × List Char :=
    match cs with
    | '-' :: r => (-1, r)
    | '+' :: r => (1, r)
    | r => (1, r)
  let sgn := sgnRest.1
  let rest := sgnRest.2
  let p := splitAtDot rest
  let ip := p.1
  match p.2 with
  | none =>
    if ip ≠ [] ∧ ip.all Char.isDigit then some ((sgn : ℚ) * digitsVal ip)
    else none
  | some fp =>
    if (ip ≠ [] ∨ fp ≠ []) ∧ ip.all Char.isDigit ∧ fp.all Char.isDigit then
      some ((sgn : ℚ) * ((digitsVal ip : ℚ) + (digitsVal fp : ℚ) / (10 : ℚ) ^ fp.length))
    else none

/-- Python `float(str(v))` (source line 268-270 uses this composite on every
requested filter value): an int converts exactly, a float round-trips
through its repr (Python guarantees `float(str(x)) == x`), and a string is
parsed as a decimal literal, failing when malformed. -/
def pyFloatOfVal : PyVal → Option ℚ
  | .int n => some (n : ℚ)
  | .float q => some q
  | .str s => parseDecimal s

/-- Python `int(x)` on a float: truncation toward zero. -/
def ratTrunc (q : ℚ) : ℤ :=
  if 0 ≤ q then ⌊q⌋ else ⌈q⌉

/-- Conversion of one requested filter value to the attribute column's
native type, as done per value in `load_data_with_attribute_filter`
(source lines 265-274): integer columns use `int(float(str(val)))`, float
columns use `float(str(val))`, all other columns use `str(val)`; if the
conversion raises, the original value is kept. -/
def convertValue (dt : Dtype) (v : PyVal) : PyVal :=
  match dt with
  | .intType =>
    match pyFloatOfVal v with
    | some q => .int (ratTrunc q)
    | none => v
  | .floatType =>
    match pyFloatOfVal v with
    | some q => .float q
    | none => v
  | .objectType => .str (pyStr v)

/-- Python `==` between attribute values, as used by `pandas.Series.isin`:
numeric values compare by value across int/float, strings compare as
strings, and numeric values never equal strings. -/
def pyEq : PyVal → PyVal → Bool
  | .int a, .int b => a == b
  | .float a, .float b => a == b
  | .int a, .float b => (a : ℚ) == b
  | .float a, .int b => a == (b : ℚ)
  | .str a, .str b => a == b
  | .int _, .str _ => false
  | .float _, .str _ => false
  | .str _, .int _ => false
  | .str _, .float _ => false

/-- A feature: one row of the GeoDataFrame. `attrs` is the attribute table
row (a `none` value is a null/NaN cell); `geom` is the geometry's vertex
list in the working projected CRS (EPSG:32748, meters). -/
structure Feature where
  attrs : List (String × Option PyVal)
  geom : List (ℚ × ℚ)
deriving DecidableEq, Repr

/-- Look an attribute up in a row; a missing column reads as null here
(column presence is tracked separately by the frame's column list). -/
def lookupAttr : List (String × Option PyVal) → String → Option PyVal
  | [], _ => none
  | (k, v) :: rest, a => if k = a then v else lookupAttr rest a

/-- The `isin` mask for one row (source line 282): a null cell never
matches; a non-null cell matches iff it equals some member of the converted
value list. -/
def rowMatches (f : Feature) (attr : String) (conv : List PyVal) : Bool :=
  match lookupAttr f.attrs attr with
  | some x => conv.any (fun c => pyEq x c)
  | none => false

/-- A bounding box in the order geopandas `total_bounds` reports it:
`[minx, miny, maxx, maxy]`. -/
structure Bounds where
  minX : ℚ
  minY : ℚ
  maxX : ℚ
  maxY : ℚ
deriving DecidableEq, Repr

/-- Extend a bounding box to cover one more vertex. -/
def extendB (b : Bounds) (p : ℚ × ℚ) : Bounds :=
  ⟨min b.minX p.1, min b.minY p.2, max b.maxX p.1, max b.maxY p.2⟩

/-- `total_bounds` of a vertex list: the min/max reduction over all
coordinates; `none` models the NaN bounds geopandas reports for a
collection with no coordinates. -/
def totalBounds : List (ℚ × ℚ) → Option Bounds
  | [] => none
  | p :: rest => some (rest.foldl extendB ⟨p.1, p.2, p.1, p.2⟩)

/-- All geometry vertices of a feature collection, in order. -/
def vertices (fc : List Feature) : List (ℚ × ℚ) :=
  fc.foldr (fun f acc => f.geom ++ acc) []

/-- The fixed ascending catalog of professional cartographic scale
denominators (source lines 515-532). -/
def professionalScales : List ℤ :=
  [1000, 2000, 5000, 10000, 15000, 20000, 25000, 30000,
   40000, 50000, 75000, 100000, 150000, 200000, 250000, 500000]

/-- The catalog search loop (source lines 535-539): the first entry whose
value is at least the required scale. -/
def firstAtLeast (req : ℚ) : List ℤ → Option ℤ
  | [] => none
  | s :: rest => if req ≤ (s : ℚ) then some s else firstAtLeast req rest

/-- `_calculate_optimal_scale_from_zoom` (source lines 486-554) with its
default 22 cm × 18 cm panel. An empty collection short-circuits to the
default scale 25000. With NaN bounds (a nonempty frame carrying no
coordinates) every catalog comparison is false in Python, so the search
falls through to the catalog maximum; the `none` bounds branch mirrors
that. Otherwise the required scale is the larger of the two per-axis
requirements `(dimension × 1.3) / panel_dimension` and the smallest catalog
entry at least as large is chosen, falling back to the catalog maximum. -/
def calculateOptimalScaleFromZoom (fc : List Feature) : ℤ :=
  if fc.isEmpty then 25000
  else
    match totalBounds (vertices fc) with
    | none => 500000
    | some b =>
      let mapWidth := b.maxX - b.minX
      let mapHeight := b.maxY - b.minY
      let paperWidth : ℚ := 22 / 100
      let paperHeight : ℚ := 18 / 100
      let safetyBuffer : ℚ := 13 / 10
      let scaleForWidth := mapWidth * safetyBuffer / paperWidth
      let scaleForHeight := mapHeight * safetyBuffer / paperHeight
      let requiredScale := max scaleForWidth scaleForHeight
      match firstAtLeast requiredScale professionalScales with
      | some s => s
      | none => 500000

/-- `_calculate_zoom_bounds_for_optimal_scale` (source lines 572-644): the
viewport implied by the target scale on the 22 cm × 18 cm panel, enlarged
per axis to at least 1.2 × the study extent, expanded (never shrunk) to the
panel aspect ratio 22/18, and centered on the extent's center. `none`
models the undefined result on a collection with no coordinates. -/
def calculateZoomBoundsForOptimalScale (fc : List Feature) (targetScale : ℚ) :
    Option Bounds :=
  match totalBounds (vertices fc) with
  | none => none
  | some b =>
    let paperWidthM : ℚ := 22 / 100
    let paperHeightM : ℚ := 18 / 100
    let requiredMapWidth := targetScale * paperWidthM
    let requiredMapHeight := targetScale * paperHeightM
    let studyWidth := b.maxX - b.minX
    let studyHeight := b.maxY - b.minY
    let centerX := (b.minX + b.maxX) / 2
    let centerY := (b.minY + b.maxY) / 2
    let finalWidth := max requiredMapWidth (studyWidth * (12 / 10))
    let finalHeight := max requiredMapHeight (studyHeight * (12 / 10))
    let aspectRatio : ℚ := (22 : ℚ) / 18
    let dims :=
      if aspectRatio < finalWidth / finalHeight then
        (finalWidth, finalWidth / aspectRatio)
      else
        (finalHeight * aspectRatio, finalHeight)
    let halfWidth := dims.1 / 2
    let halfHeight := dims.2 / 2
    some ⟨centerX - halfWidth, centerY - halfHeight,
          centerX + halfWidth, centerY + halfHeight⟩

/-- The enhanced 20-color palette used by
`_generate_colors_for_attribute_values` and
`_generate_colors_for_attribute` (source lines 441-462). -/
def enhancedColors : List String :=
  ["#E74C3C", "#3498DB", "#2ECC71", "#F39C12", "#9B59B6",
   "#1ABC9C", "#E67E22", "#34495E", "#F1C40F", "#E91E63",
   "#00BCD4", "#4CAF50", "#FF9800", "#795548", "#607D8B",
   "#FF5722", "#673AB7", "#009688", "#8BC34A", "#FFEB3B"]

/-- The 15-color base palette used by `_generate_subdivision_colors`
(source lines 94-110). -/
def baseColors : List String :=
  ["#E74C3C", "#3498DB", "#2ECC71", "#F39C12", "#9B59B6",
   "#1ABC9C", "#E67E22", "#34495E", "#F1C40F", "#E91E63",
   "#00BCD4", "#4CAF50", "#FF9800", "#795548", "#607D8B"]

/-- The color-assignment loop (source lines 465-467 and 366-369):
`for i, value in enumerate(unique_values): colors[value] =
palette[i % len(palette)]`, unrolled from start index `i`. The default of
`getD` is unreachable for a nonempty palette since `i % length < length`. -/
def assignColorsFrom (palette : List String) (i : ℕ) :
    List PyVal → List (PyVal × String)
  | [] => []
  | v :: rest =>
    (v, palette.getD (i % palette.length) "#000000") ::
      assignColorsFrom palette (i + 1) rest

/-- Color assignment for an ordered list of unique attribute values. -/
def assignColors (values : List PyVal) (palette : List String) :
    List (PyVal × String) :=
  assignColorsFrom palette 0 values

/-- Look a value's color up in the assignment (Python dict access on the
`colors` dict built by the loop). -/
def lookupColor : List (PyVal × String) → PyVal → Option String
  | [], _ => none
  | (k, c) :: rest, v => if k = v then some c else lookupColor rest v

/-- First-seen-order deduplication, as `pandas.Series.unique` performs. -/
def uniqFrom (seen : List PyVal) : List PyVal → List PyVal
  | [] => []
  | v :: rest =>
    if v ∈ seen then uniqFrom seen rest
    else v :: uniqFrom (v :: seen) rest

/-- `gdf[attr].dropna().unique()` (source lines 433 and 361): the unique
non-null values of a column in first-seen order. -/
def uniqueNonNull (col : List (Option PyVal)) : List PyVal :=
  uniqFrom [] (col.filterMap id)

/-- `_generate_colors_for_attribute_values` color construction (source
lines 430-478) restricted to its computational core: drop nulls, take
first-seen unique values, assign cycled palette colors. -/
def generateColorsForAttributeValues (col : List (Option PyVal)) :
    List (PyVal × String) :=
  assignColors (uniqueNonNull col) enhancedColors

/-- The dynamic label size buckets of `_add_dynamic_labels` (source lines
1154-1169): font size and padding chosen by the first strict area
threshold met, area in m². Padding 0.4/0.35/0.3/0.25/0.2 as exact
rationals. -/
def labelClass (areaM2 : ℚ) : ℕ × ℚ :=
  if 500000 < areaM2 then (11, 4 / 10)
  else if 100000 < areaM2 then (10, 35 / 100)
  else if 50000 < areaM2 then (9, 3 / 10)
  else if 10000 < areaM2 then (8, 25 / 100)
  else (7, 2 / 10)

/-- The label size table as the claim states it: scanned top-down, taking
the first threshold the area is greater than OR EQUAL to. Stated from the
spec's words, for comparison with `labelClass` above. -/
def labelClassClaimed (areaM2 : ℚ) : ℕ × ℚ :=
  if 500000 ≤ areaM2 then (11, 4 / 10)
  else if 100000 ≤ areaM2 then (10, 35 / 100)
  else if 50000 ≤ areaM2 then (9, 3 / 10)
  else if 10000 ≤ areaM2 then (8, 25 / 100)
  else (7, 2 / 10)

/-- Inputs of `_verify_reprojection` (source lines 133-177) that are
produced by the external projection library: the WGS84 bounds of the
original data, the WGS84 bounds of the round-tripped (working-CRS) data,
and the two total feature areas being compared. -/
structure VerifyInput where
  origBounds : Bounds
  reprojBounds : Bounds
  origArea : ℚ
  reprojArea : ℚ
deriving DecidableEq, Repr

/-- Maximum absolute coordinate difference between two bounding boxes
(source lines 146-147). -/
def maxBoundDiff (a b : Bounds) : ℚ :=
  max (max |a.minX - b.minX| |a.minY - b.minY|)
      (max |a.maxX - b.maxX| |a.maxY - b.maxY|)

/-- Percentage difference of total areas (source line 161). -/
def areaDiffPercent (origArea reprojArea : ℚ) : ℚ :=
  |origArea - reprojArea| / origArea * 100

/-- `_verify_reprojection` (source lines 133-177). First component: the
returned bool, true exactly when the maximum bound difference is below the
0.001-degree tolerance. Second component: whether the 1%-area warning
diagnostic was printed (only evaluated when the bounds check passed; the
area outcome never changes the returned bool). -/
def verifyReprojection (vi : VerifyInput) : Bool × Bool :=
  if maxBoundDiff vi.origBounds vi.reprojBounds < 1 / 1000 then
    (true, !(areaDiffPercent vi.origArea vi.reprojArea < 1))
  else
    (false, false)

/-- Result of the two loading entry points: the final feature list, the
returned success bool, the verification outcome, and whether the
empty-filter fallback fired (filter cleared with a warning and the full
file reloaded). -/
structure LoadResult where
  features : List Feature
  success : Bool
  verifyPassed : Bool
  areaWarn : Bool
  fallback : Bool
deriving DecidableEq, Repr

/-- `load_data` (source lines 179-228): read, CRS fallback, reproject,
verify (result discarded), optional subdivision filter, colors, then
`return True` unconditionally on the non-exception path. -/
def loadData (fileRows : List Feature) (vi : VerifyInput)
    (selectedSubdivisions : Option (List PyVal)) : LoadResult :=
  let v := verifyReprojection vi
  let gdf :=
    match selectedSubdivisions with
    | some subs =>
      fileRows.filter (fun r =>
        match lookupAttr r.attrs "SUB_DIVISI" with
        | some x => subs.any (fun s => pyEq x s)
        | none => false)
    | none => fileRows
  ⟨gdf, true, v.1, v.2, false⟩

/-- The attribute-filter core of `load_data_with_attribute_filter` (source
lines 250-320): coerce the requested values to the column dtype, apply the
`isin` mask, and on an empty result clear the filter with a warning and
reload the full file. A missing column raises `KeyError`, caught by the
filter-error handler, which also reloads the full file. Returns the
resulting rows and whether a fallback fired. -/
def applyAttributeFilter (fileRows : List Feature) (cols : List String)
    (attr : String) (vals : List PyVal) (dt : Dtype) :
    List Feature × Bool :=
  if attr ∈ cols then
    let conv := vals.map (convertValue dt)
    let filtered := fileRows.filter (fun r => rowMatches r attr conv)
    if filtered.isEmpty then (fileRows, true) else (filtered, false)
  else (fileRows, true)

/-- `load_data_with_attribute_filter` (source lines 230-356): reprojects,
applies the attribute filter with its empty-result fallback, verifies the
reprojection (result discarded), and returns `True` unconditionally on the
non-exception path. -/
def loadDataWithAttributeFilter (fileRows : List Feature)
    (cols : List String) (attr : String) (vals : List PyVal) (dt : Dtype)
    (vi : VerifyInput) : LoadResult :=
  let fr := applyAttributeFilter fileRows cols attr vals dt
  let v := verifyReprojection vi
  ⟨fr.1, true, v.1, v.2, fr.2⟩

/-- Boolean order-preserving-subsequence test, used to state the claim's
"subset preserving relative first-seen order". -/
def isSubseq : List PyVal → List PyVal → Bool
  | [], _ => true
  | _ :: _, [] => false
  | a :: l, b :: m => if a = b then isSubseq l m else isSubseq (a :: l) m

/-! ### Helper lemmas about color assignment -/

theorem lookup_assignFrom_get (palette : List String) (values : List PyVal)
    (hnd : values.Nodup) :
    ∀ (j i : ℕ) (hi : i < values.length),
      lookupColor (assignColorsFrom palette j values) (values.get ⟨i, hi⟩) =
        some (palette.getD ((j + i) % palette.length) "#000000") := by
  induction values with
  | nil => intro j i hi; exact absurd hi (Nat.not_lt_zero i)
  | cons v rest ih =>
    intro j i hi
    cases i with
    | zero => simp [assignColorsFrom, lookupColor]
    | succ k =>
      have hk : k < rest.length := by
        simpa [Nat.succ_lt_succ_iff] using hi
      have hv : v ∉ rest := (List.nodup_cons.mp hnd).1
      have hne : v ≠ rest.get ⟨k, hk⟩ := by
        intro h
        exact hv (h ▸ rest.get_mem k hk)
      have hstep : (v :: rest).get ⟨k + 1, hi⟩ = rest.get ⟨k, hk⟩ := rfl
      rw [hstep, assignColorsFrom, lookupColor, if_neg hne,
        ih (List.nodup_cons.mp hnd).2 (j + 1) k hk]
      have harith : j + 1 + k = j + (k + 1) := by omega
      rw [harith]

theorem lookup_assignFrom_append (palette : List String) (t : List PyVal) :
    ∀ (l : List PyVal) (j : ℕ) (v : PyVal) (c : String),
      lookupColor (assignColorsFrom palette j l) v = some c →
      lookupColor (assignColorsFrom palette j (l ++ t)) v = some c := by
  intro l
  induction l with
  | nil => intro j v c h; simp [assignColorsFrom, lookupColor] at h
  | cons a rest ih =>
    intro j v c h
    rw [assignColorsFrom, lookupColor] at h
    rw [List.cons_append, assignColorsFrom, lookupColor]
    by_cases hav : a = v
    · rwa [if_pos hav] at h ⊢
    · rw [if_neg hav] at h ⊢
      exact ih (j + 1) v c h

theorem keys_assignFrom (palette : List String) :
    ∀ (l : List PyVal) (j : ℕ),
      (assignColorsFrom palette j l).map Prod.fst = l := by
  intro l
  induction l with
  | nil => intro j; rfl
  | cons a rest ih => intro j; simp [assignColorsFrom, ih (j + 1)]

theorem lookup_ne_none_iff_mem (palette : List String) :
    ∀ (l : List PyVal) (j : ℕ) (v : PyVal),
      lookupColor (assignColorsFrom palette j l) v ≠ none ↔ v ∈ l := by
  intro l
  induction l with
  | nil => intro j v; simp [assignColorsFrom, lookupColor]
  | cons a rest ih =>
    intro j v
    rw [assignColorsFrom, lookupColor]
    by_cases hav : a = v
    · simp [if_pos hav, hav]
    · rw [if_neg hav, List.mem_cons]
      rw [ih (j + 1) v]
      constructor
      · intro h; exact Or.inr h
      · intro h
        rcases h with h | h
        · exact absurd h.symm hav
        · exact h

theorem mem_uniqFrom (v : PyVal) :
    ∀ (l seen : List PyVal), v ∈ uniqFrom seen l ↔ v ∈ l ∧ v ∉ seen := by
  intro l
  induction l with
  | nil => intro seen; simp [uniqFrom]
  | cons a rest ih =>
    intro seen
    rw [uniqFrom]
    by_cases ha : a ∈ seen
    · rw [if_pos ha, ih seen, List.mem_cons]
      constructor
      · intro h; exact ⟨Or.inr h.1, h.2⟩
      · intro h
        rcases h.1 with h1 | h1
        · exact absurd (by rw [h1]; exact ha) h.2
        · exact ⟨h1, h.2⟩
    · rw [if_neg ha, List.mem_cons, List.mem_cons, ih (a :: seen),
        List.mem_cons]
      constructor
      · intro h
        rcases h with h | h
        · exact ⟨Or.inl h, by rw [h]; exact ha⟩
        · exact ⟨Or.inr h.1, fun hv => h.2 (Or.inr hv)⟩
      · intro h
        rcases h.1 with h1 | h1
        · exact Or.inl h1
        · by_cases hva : v = a
          · exact Or.inl hva
          · exact Or.inr ⟨h1, fun hv => hv.elim hva h.2⟩

/-- `_generate_subdivision_colors` color construction (source lines
358-377): same loop over the unique non-null `SUB_DIVISI` values, with the
15-color base palette. -/
def generateSubdivisionColors (col : List (Option PyVal)) :
    List (PyVal × String) :=
  assignColors (uniqueNonNull col) baseColors

/-! ### Claim theorems: color assignment -/

/-- C5: for every ordered list of unique attribute values and a palette of
N colors, the i-th value (0-based, first-seen order) is assigned
palette[i mod N]; values beyond the palette size cycle rather than
erroring. -/
theorem color_cycling (values : List PyVal) (palette : List String) (i : ℕ)
    (hnd : values.Nodup) (hp : 0 < palette.length)
    (hi : i < values.length) :
    lookupColor (assignColors values palette) (values.get ⟨i, hi⟩) =
      some (palette.get ⟨i % palette.length, Nat.mod_lt i hp⟩) := by
  rw [assignColors, lookup_assignFrom_get palette values hnd 0 i hi,
    Nat.zero_add, List.getD_eq_getElem _ _ (Nat.mod_lt i hp),
    List.get_eq_getElem]

/-- C5 witness: 7 unique values with a 5-color palette; the 6th value
(index 5) receives palette index 5 mod 5 = 0. -/
theorem color_cycling_witness :
    ([PyVal.str "A", PyVal.str "B", PyVal.str "C", PyVal.str "D",
      PyVal.str "E", PyVal.str "F", PyVal.str "G"]).Nodup ∧
    0 < (["c0", "c1", "c2", "c3", "c4"] : List String).length ∧
    5 < ([PyVal.str "A", PyVal.str "B", PyVal.str "C", PyVal.str "D",
      PyVal.str "E", PyVal.str "F", PyVal.str "G"]).length ∧
    lookupColor
      (assignColors
        [PyVal.str "A", PyVal.str "B", PyVal.str "C", PyVal.str "D",
         PyVal.str "E", PyVal.str "F", PyVal.str "G"]
        ["c0", "c1", "c2", "c3", "c4"])
      (([PyVal.str "A", PyVal.str "B", PyVal.str "C", PyVal.str "D",
         PyVal.str "E", PyVal.str "F", PyVal.str "G"]).get ⟨5, by decide⟩) =
      some ((["c0", "c1", "c2", "c3", "c4"] : List String).get
        ⟨5 % 5, by decide⟩) :=
  ⟨by decide, by decide, by decide,
    color_cycling
      [PyVal.str "A", PyVal.str "B", PyVal.str "C", PyVal.str "D",
       PyVal.str "E", PyVal.str "F", PyVal.str "G"]
      ["c0", "c1", "c2", "c3", "c4"] 5 (by decide) (by decide) (by decide)⟩

/-- C4 counterexample: [B] is an order-preserving subset of [A, B], yet B
receives palette color 0 in the subset assignment and palette color 1 in
the superset assignment, so the subset's mapping disagrees with the
superset's on the shared value B. -/
theorem color_subset_stability_cex :
    isSubseq [PyVal.str "B"] [PyVal.str "A", PyVal.str "B"] = true ∧
    lookupColor (assignColors [PyVal.str "B"] enhancedColors)
      (PyVal.str "B") = some "#E74C3C" ∧
    lookupColor (assignColors [PyVal.str "A", PyVal.str "B"] enhancedColors)
      (PyVal.str "B") = some "#3498DB" ∧
    ¬ lookupColor (assignColors [PyVal.str "B"] enhancedColors)
        (PyVal.str "B") =
      lookupColor (assignColors [PyVal.str "A", PyVal.str "B"]
        enhancedColors) (PyVal.str "B") := by
  decide

/-- C4 amended: assigning colors twice to the same ordered unique-value
list with the same palette yields identical mappings, and an assignment
agrees with the assignment for any extension of the list (so agreement on
shared values holds when the shorter list is an initial segment of the
longer one — not for arbitrary order-preserving subsets). -/
theorem color_determinism_and_initial_segment_stability
    (values rest : List PyVal) (palette : List String) (v : PyVal)
    (c : String)
    (h : lookupColor (assignColors values palette) v = some c) :
    assignColors values palette = assignColors values palette ∧
    lookupColor (assignColors (values ++ rest) palette) v = some c :=
  ⟨rfl, lookup_assignFrom_append palette rest values 0 v c h⟩

/-- C4 amended witness: A keeps its color when the value list [A] is
extended to [A, B]. -/
theorem color_determinism_and_initial_segment_stability_witness :
    lookupColor (assignColors [PyVal.str "A"] enhancedColors)
      (PyVal.str "A") = some "#E74C3C" ∧
    (assignColors [PyVal.str "A"] enhancedColors =
      assignColors [PyVal.str "A"] enhancedColors ∧
     lookupColor
       (assignColors ([PyVal.str "A"] ++ [PyVal.str "B"]) enhancedColors)
       (PyVal.str "A") = some "#E74C3C") :=
  ⟨by decide,
    color_determinism_and_initial_segment_stability [PyVal.str "A"]
      [PyVal.str "B"] enhancedColors (PyVal.str "A") "#E74C3C" (by decide)⟩

/-- C10: only the unique non-null values of the attribute column receive a
color entry — the mapping's keys are exactly the first-seen unique
non-null values, and a value has a color iff it occurs non-null in the
column; a feature whose attribute cell is null contributes nothing. Holds
for both the attribute-value palette and the subdivision palette. -/
theorem color_assignment_skips_nulls (col : List (Option PyVal))
    (v : PyVal) :
    (generateColorsForAttributeValues col).map Prod.fst =
      uniqueNonNull col ∧
    (generateSubdivisionColors col).map Prod.fst = uniqueNonNull col ∧
    (lookupColor (generateColorsForAttributeValues col) v ≠ none ↔
      some v ∈ col) ∧
    (lookupColor (generateSubdivisionColors col) v ≠ none ↔
      some v ∈ col) := by
  refine ⟨keys_assignFrom enhancedColors (uniqueNonNull col) 0,
    keys_assignFrom baseColors (uniqueNonNull col) 0, ?_, ?_⟩
  · rw [generateColorsForAttributeValues, assignColors,
      lookup_ne_none_iff_mem enhancedColors (uniqueNonNull col) 0 v,
      uniqueNonNull, mem_uniqFrom]
    simp [List.mem_filterMap]
  · rw [generateSubdivisionColors, assignColors,
      lookup_ne_none_iff_mem baseColors (uniqueNonNull col) 0 v,
      uniqueNonNull, mem_uniqFrom]
    simp [List.mem_filterMap]

/-! ### Claim theorems: label sizing -/

/-- C7 counterexample: at area exactly 500000 m² the claimed table (first
threshold the area is ≥) gives font 11 / pad 0.4, but the code's strict
comparison `area_m2 > 500000` fails there and the 100000-bucket applies,
giving font 10 / pad 0.35. -/
theorem label_size_classes_cex :
    labelClassClaimed 500000 = (11, 4 / 10) ∧
    labelClass 500000 = (10, 35 / 100) ∧
    ¬ labelClass 500000 = labelClassClaimed 500000 := by
  norm_num [labelClass, labelClassClaimed]

/-- C7 amended: the font size and padding are chosen by scanning the fixed
threshold table top-down, taking the first threshold the feature's area is
STRICTLY greater than: area > 500000 → 11/0.4; > 100000 → 10/0.35;
> 50000 → 9/0.3; > 10000 → 8/0.25; otherwise 7/0.2. -/
theorem label_size_classes (a : ℚ) :
    (500000 < a → labelClass a = (11, 4 / 10)) ∧
    (100000 < a → a ≤ 500000 → labelClass a = (10, 35 / 100)) ∧
    (50000 < a → a ≤ 100000 → labelClass a = (9, 3 / 10)) ∧
    (10000 < a → a ≤ 50000 → labelClass a = (8, 25 / 100)) ∧
    (a ≤ 10000 → labelClass a = (7, 2 / 10)) := by
  refine ⟨fun h1 => ?_, fun h1 h2 => ?_, fun h1 h2 => ?_,
    fun h1 h2 => ?_, fun h1 => ?_⟩ <;>
    rw [labelClass] <;> split_ifs <;> first | rfl | linarith

/-- C7 witness: a 600000 m² feature is strictly above the top threshold
and gets font 11 / pad 0.4. -/
theorem label_size_classes_witness :
    (500000 : ℚ) < 600000 ∧ labelClass 600000 = (11, 4 / 10) :=
  ⟨by norm_num, (label_size_classes 600000).1 (by norm_num)⟩

/-! ### Claim theorems: CRS round-trip verification -/

/-- C6: the verification passes exactly when the maximum absolute
bounding-box coordinate difference is under the 0.001-degree tolerance;
when the bounds check passes the total areas are additionally compared
against a 1% tolerance, producing only a warning diagnostic; and a failed
verification never prevents `load_data` or
`load_data_with_attribute_filter` from returning True. -/
theorem crs_verification_nonfatal (fileRows : List Feature)
    (vi : VerifyInput) (sel : Option (List PyVal)) (cols : List String)
    (attr : String) (vals : List PyVal) (dt : Dtype) :
    (loadData fileRows vi sel).success = true ∧
    (loadDataWithAttributeFilter fileRows cols attr vals dt vi).success =
      true ∧
    ((verifyReprojection vi).1 = false →
      (loadData fileRows vi sel).success = true ∧
      (loadDataWithAttributeFilter fileRows cols attr vals dt vi).success =
        true) ∧
    ((verifyReprojection vi).1 = true ↔
      maxBoundDiff vi.origBounds vi.reprojBounds < 1 / 1000) ∧
    ((verifyReprojection vi).1 = true →
      ((verifyReprojection vi).2 = true ↔
        ¬ areaDiffPercent vi.origArea vi.reprojArea < 1)) := by
  refine ⟨rfl, rfl, fun _ => ⟨rfl, rfl⟩, ?_, ?_⟩
  · rw [verifyReprojection]
    split_ifs with h
    · exact iff_of_true rfl h
    · exact iff_of_false (by simp) h
  · intro hpass
    rw [verifyReprojection] at hpass ⊢
    split_ifs at hpass ⊢ with h
    simp

/-- C6 witness: a round-trip whose bounds drift by a full degree fails
verification, yet both loaders still report success. -/
theorem crs_verification_nonfatal_witness :
    (verifyReprojection ⟨⟨0, 0, 1, 1⟩, ⟨1, 0, 2, 1⟩, 1, 1⟩).1 = false ∧
    (loadData [] ⟨⟨0, 0, 1, 1⟩, ⟨1, 0, 2, 1⟩, 1, 1⟩ none).success = true ∧
    (loadDataWithAttributeFilter [] [] "X" []
      Dtype.objectType ⟨⟨0, 0, 1, 1⟩, ⟨1, 0, 2, 1⟩, 1, 1⟩).success =
      true :=
  ⟨by norm_num [verifyReprojection, maxBoundDiff],
    ((crs_verification_nonfatal [] ⟨⟨0, 0, 1, 1⟩, ⟨1, 0, 2, 1⟩, 1, 1⟩ none
      [] "X" [] Dtype.objectType).2.2.1
      (by norm_num [verifyReprojection, maxBoundDiff])).1,
    ((crs_verification_nonfatal [] ⟨⟨0, 0, 1, 1⟩, ⟨1, 0, 2, 1⟩, 1, 1⟩ none
      [] "X" [] Dtype.objectType).2.2.1
      (by norm_num [verifyReprojection, maxBoundDiff])).2⟩

/-! ### Claim theorems: empty input -/

/-- C8 counterexample: an empty FeatureCollection is not fatal — the
scale selector proceeds and returns the default scale 25000, and
`load_data` still returns True. -/
theorem empty_input_not_fatal_cex :
    calculateOptimalScaleFromZoom [] = 25000 ∧
    (loadData [] ⟨⟨0, 0, 0, 0⟩, ⟨0, 0, 0, 0⟩, 0, 0⟩ none).success =
      true :=
  ⟨rfl, rfl⟩

/-- C8 amended: for a FeatureCollection with no features at all the
pipeline does NOT abort: `load_data` returns True and
`_calculate_optimal_scale_from_zoom` returns the default scale 25000 (a
catalog member) instead of surfacing an error. -/
theorem empty_input_returns_default_scale (vi : VerifyInput)
    (sel : Option (List PyVal)) :
    (loadData [] vi sel).success = true ∧
    calculateOptimalScaleFromZoom [] = 25000 ∧
    (25000 : ℤ) ∈ professionalScales := by
  refine ⟨rfl, rfl, by decide⟩

/-- Python `int()` of an exact integer value is that integer. -/
theorem ratTrunc_intCast (n : ℤ) : ratTrunc (n : ℚ) = n := by
  rw [ratTrunc]
  split_ifs with h
  · exact Int.floor_intCast n
  · exact Int.ceil_intCast n

/-! ### Claim theorems: attribute filter -/

/-- C2: if the exact type-coerced filter match is empty,
`load_data_with_attribute_filter` returns the full original collection and
flags the fallback (warning printed, filter cleared); otherwise it returns
exactly the subset whose attribute value is in the coerced set, with no
fallback; and the result is never empty when the input was non-empty. -/
theorem filter_empty_fallback (fileRows : List Feature)
    (cols : List String) (attr : String) (vals : List PyVal) (dt : Dtype)
    (vi : VerifyInput) (hc : attr ∈ cols) :
    (fileRows.filter
        (fun r => rowMatches r attr (vals.map (convertValue dt))) = [] →
      (loadDataWithAttributeFilter fileRows cols attr vals dt vi).features =
          fileRows ∧
        (loadDataWithAttributeFilter fileRows cols attr vals dt
            vi).fallback = true) ∧
    (fileRows.filter
        (fun r => rowMatches r attr (vals.map (convertValue dt))) ≠ [] →
      (loadDataWithAttributeFilter fileRows cols attr vals dt vi).features =
          fileRows.filter
            (fun r => rowMatches r attr (vals.map (convertValue dt))) ∧
        (loadDataWithAttributeFilter fileRows cols attr vals dt
            vi).fallback = false) ∧
    (fileRows ≠ [] →
      (loadDataWithAttributeFilter fileRows cols attr vals dt vi).features ≠
        []) := by
  refine ⟨fun h => ?_, fun h => ?_, fun hne => ?_⟩
  · constructor <;>
      simp [loadDataWithAttributeFilter, applyAttributeFilter, hc,
        List.isEmpty_iff, h]
  · constructor <;>
      simp [loadDataWithAttributeFilter, applyAttributeFilter, hc,
        List.isEmpty_iff, h]
  · by_cases h : fileRows.filter
        (fun r => rowMatches r attr (vals.map (convertValue dt))) = []
    · simpa [loadDataWithAttributeFilter, applyAttributeFilter, hc,
        List.isEmpty_iff, h] using hne
    · simp [loadDataWithAttributeFilter, applyAttributeFilter, hc,
        List.isEmpty_iff, h]

/-- C2 witness: a one-row frame whose only X value is "a", filtered for
X = "b": the exact match is empty, so the full frame comes back with the
fallback flag, and the result is non-empty. -/
theorem filter_empty_fallback_witness :
    ("X" ∈ ["X"]) ∧
    ([Feature.mk [("X", some (PyVal.str "a"))] []].filter
        (fun r => rowMatches r "X"
          ([PyVal.str "b"].map (convertValue Dtype.objectType))) = []) ∧
    ((loadDataWithAttributeFilter [Feature.mk [("X", some (PyVal.str "a"))] []]
        ["X"] "X" [PyVal.str "b"] Dtype.objectType
        ⟨⟨0, 0, 0, 0⟩, ⟨0, 0, 0, 0⟩, 0, 0⟩).features =
      [Feature.mk [("X", some (PyVal.str "a"))] []] ∧
     (loadDataWithAttributeFilter [Feature.mk [("X", some (PyVal.str "a"))] []]
        ["X"] "X" [PyVal.str "b"] Dtype.objectType
        ⟨⟨0, 0, 0, 0⟩, ⟨0, 0, 0, 0⟩, 0, 0⟩).fallback = true) :=
  ⟨by decide, by decide,
    (filter_empty_fallback [Feature.mk [("X", some (PyVal.str "a"))] []]
      ["X"] "X" [PyVal.str "b"] Dtype.objectType
      ⟨⟨0, 0, 0, 0⟩, ⟨0, 0, 0, 0⟩, 0, 0⟩ (by decide)).1 (by decide)⟩

/-- C9: requested filter values are coerced to the column's native type
before the membership comparison — integer columns via
`int(float(str(v)))` (here: exact int round-trip, float truncation toward
zero, decimal parse for strings), float columns via `float(str(v))`,
other columns via `str(v)`; a value whose coercion fails is kept in its
original form; and the non-fallback filter result is computed by
membership in the coerced set. -/
theorem filter_value_coercion (n : ℤ) (q : ℚ) (s : String) (v : PyVal)
    (vals : List PyVal) (dt : Dtype) (fileRows : List Feature)
    (cols : List String) (attr : String) (vi : VerifyInput) :
    convertValue Dtype.intType (PyVal.int n) = PyVal.int n ∧
    convertValue Dtype.intType (PyVal.float q) = PyVal.int (ratTrunc q) ∧
    convertValue Dtype.intType (PyVal.str s) =
      (match parseDecimal s with
       | some r => PyVal.int (ratTrunc r)
       | none => PyVal.str s) ∧
    convertValue Dtype.floatType (PyVal.int n) = PyVal.float (n : ℚ) ∧
    convertValue Dtype.floatType (PyVal.float q) = PyVal.float q ∧
    convertValue Dtype.floatType (PyVal.str s) =
      (match parseDecimal s with
       | some r => PyVal.float r
       | none => PyVal.str s) ∧
    convertValue Dtype.objectType v = PyVal.str (pyStr v) ∧
    (parseDecimal s = none →
      convertValue Dtype.intType (PyVal.str s) = PyVal.str s ∧
      convertValue Dtype.floatType (PyVal.str s) = PyVal.str s) ∧
    (attr ∈ cols →
      fileRows.filter
        (fun r => rowMatches r attr (vals.map (convertValue dt))) ≠ [] →
      (loadDataWithAttributeFilter fileRows cols attr vals dt vi).features =
        fileRows.filter
          (fun r => rowMatches r attr (vals.map (convertValue dt)))) := by
  refine ⟨?_, rfl, rfl, rfl, rfl, rfl, rfl, fun hp => ?_, fun hc hne => ?_⟩
  · rw [convertValue]
    simp only [pyFloatOfVal]
    rw [ratTrunc_intCast]
  · constructor <;>
      · rw [convertValue]
        simp only [pyFloatOfVal, hp]
  · simp [loadDataWithAttributeFilter, applyAttributeFilter, hc,
      List.isEmpty_iff, hne]

/-- C9 witness: coercing the string "5.9" for an integer column yields the
integer 5 (parse then truncate); "abc" fails to parse for a float column
and is kept as-is; and the coerced membership filter keeps the matching
row. -/
theorem filter_value_coercion_witness :
    parseDecimal "abc" = none ∧
    (convertValue Dtype.intType (PyVal.str "abc") = PyVal.str "abc" ∧
     convertValue Dtype.floatType (PyVal.str "abc") = PyVal.str "abc") ∧
    ("N" ∈ ["N"]) ∧
    ([Feature.mk [("N", some (PyVal.int 5))] []].filter
        (fun r => rowMatches r "N"
          ([PyVal.str "5.9"].map (convertValue Dtype.intType))) ≠ []) ∧
    (loadDataWithAttributeFilter [Feature.mk [("N", some (PyVal.int 5))] []]
        ["N"] "N" [PyVal.str "5.9"] Dtype.intType
        ⟨⟨0, 0, 0, 0⟩, ⟨0, 0, 0, 0⟩, 0, 0⟩).features =
      [Feature.mk [("N", some (PyVal.int 5))] []].filter
        (fun r => rowMatches r "N"
          ([PyVal.str "5.9"].map (convertValue Dtype.intType))) := by
  have h59 : convertValue Dtype.intType (PyVal.str "5.9") = PyVal.int 5 := by
    simp [convertValue, pyFloatOfVal, parseDecimal, splitAtDot, digitsVal,
      ratTrunc]
    norm_num [Int.floor_eq_iff]
  have hmap : [PyVal.str "5.9"].map (convertValue Dtype.intType) =
      [PyVal.int 5] := by
    rw [List.map_cons, h59, List.map_nil]
  have hfil : [Feature.mk [("N", some (PyVal.int 5))] []].filter
      (fun r => rowMatches r "N"
        ([PyVal.str "5.9"].map (convertValue Dtype.intType))) =
      [Feature.mk [("N", some (PyVal.int 5))] []] := by
    rw [hmap]; decide
  refine ⟨by decide, ?_, by decide, ?_, ?_⟩
  · exact (filter_value_coercion 0 0 "abc" (PyVal.int 0) [] Dtype.intType
      [] [] "N" ⟨⟨0, 0, 0, 0⟩, ⟨0, 0, 0, 0⟩, 0, 0⟩).2.2.2.2.2.2.2.1
      (by decide)
  · rw [hfil]
    exact fun hcon => List.noConfusion hcon
  · exact (filter_value_coercion 0 0 "abc" (PyVal.int 0) [PyVal.str "5.9"]
      Dtype.intType [Feature.mk [("N", some (PyVal.int 5))] []] ["N"] "N"
      ⟨⟨0, 0, 0, 0⟩, ⟨0, 0, 0, 0⟩, 0, 0⟩).2.2.2.2.2.2.2.2 (by decide)
      (by rw [hfil]; exact fun hcon => List.noConfusion hcon)

/-! ### Helper lemmas about bounds and the scale catalog -/

theorem foldl_extendB_wf (l : List (ℚ × ℚ)) :
    ∀ init : Bounds, init.minX ≤ init.maxX → init.minY ≤ init.maxY →
      (l.foldl extendB init).minX ≤ (l.foldl extendB init).maxX ∧
      (l.foldl extendB init).minY ≤ (l.foldl extendB init).maxY := by
  induction l with
  | nil => intro init h1 h2; exact ⟨h1, h2⟩
  | cons p rest ih =>
    intro init h1 h2
    rw [List.foldl_cons]
    exact ih (extendB init p)
      (le_trans (min_le_right init.minX p.1) (le_max_right init.maxX p.1))
      (le_trans (min_le_right init.minY p.2) (le_max_right init.maxY p.2))

theorem totalBounds_wf (ps : List (ℚ × ℚ)) (b : Bounds)
    (h : totalBounds ps = some b) : b.minX ≤ b.maxX ∧ b.minY ≤ b.maxY := by
  cases ps with
  | nil => simp [totalBounds] at h
  | cons p rest =>
    rw [totalBounds, Option.some.injEq] at h
    rw [← h]
    exact foldl_extendB_wf rest ⟨p.1, p.2, p.1, p.2⟩ le_rfl le_rfl

theorem firstAtLeast_spec (req : ℚ) :
    ∀ (l : List ℤ) (s : ℤ), firstAtLeast req l = some s →
      s ∈ l ∧ req ≤ (s : ℚ) := by
  intro l
  induction l with
  | nil => intro s h; simp [firstAtLeast] at h
  | cons a rest ih =>
    intro s h
    rw [firstAtLeast] at h
    split_ifs at h with ha
    · injection h with h
      rw [← h]
      exact ⟨List.mem_cons_self a rest, ha⟩
    · exact ⟨List.mem_cons_of_mem a (ih s h).1, (ih s h).2⟩

theorem firstAtLeast_min (req : ℚ) :
    ∀ l : List ℤ, l.Pairwise (· ≤ ·) →
      ∀ s : ℤ, firstAtLeast req l = some s →
        ∀ t ∈ l, req ≤ (t : ℚ) → s ≤ t := by
  intro l
  induction l with
  | nil => intro _ s h; simp [firstAtLeast] at h
  | cons a rest ih =>
    intro hp s h t ht hreq
    rw [firstAtLeast] at h
    split_ifs at h with ha
    · injection h with h
      rw [← h]
      rcases List.mem_cons.mp ht with h1 | h1
      · rw [h1]
      · exact (List.pairwise_cons.mp hp).1 t h1
    · rcases List.mem_cons.mp ht with h1 | h1
      · rw [h1] at hreq; exact absurd hreq ha
      · exact ih (List.pairwise_cons.mp hp).2 s h t h1 hreq

theorem firstAtLeast_none (req : ℚ) :
    ∀ l : List ℤ, firstAtLeast req l = none →
      ∀ t ∈ l, (t : ℚ) < req := by
  intro l
  induction l with
  | nil => intro _ t ht; simp at ht
  | cons a rest ih =>
    intro h t ht
    rw [firstAtLeast] at h
    split_ifs at h with ha
    rcases List.mem_cons.mp ht with h1 | h1
    · rw [h1]; exact lt_of_not_le ha
    · exact ih h t h1

/-- The required-scale formula as the claim states it:
`max ((w × 1.3) / 0.22, (h × 1.3) / 0.18)` for extent width w and
height h, the 22 cm × 18 cm panel and the 1.3 safety buffer. -/
def requiredScaleClaimed (b : Bounds) : ℚ :=
  max ((b.maxX - b.minX) * (13 / 10) / (22 / 100))
      ((b.maxY - b.minY) * (13 / 10) / (18 / 100))

theorem vertices_ne_nil_of_totalBounds (fc : List Feature) (b : Bounds)
    (hb : totalBounds (vertices fc) = some b) : fc.isEmpty = false := by
  cases fc with
  | nil => simp [vertices, totalBounds] at hb
  | cons f rest => rfl

theorem calcScale_eq (fc : List Feature) (b : Bounds)
    (hb : totalBounds (vertices fc) = some b) :
    calculateOptimalScaleFromZoom fc =
      (match firstAtLeast (requiredScaleClaimed b) professionalScales with
       | some s => s
       | none => 500000) := by
  have hfe := vertices_ne_nil_of_totalBounds fc b hb
  unfold calculateOptimalScaleFromZoom
  rw [hfe, hb]
  rfl

theorem scale_mem_catalog (gdf : List Feature) :
    calculateOptimalScaleFromZoom gdf ∈ professionalScales := by
  by_cases hb : ∃ b, totalBounds (vertices gdf) = some b
  · obtain ⟨b, hb⟩ := hb
    rw [calcScale_eq gdf b hb]
    cases hf : firstAtLeast (requiredScaleClaimed b) professionalScales with
    | none => decide
    | some s => exact (firstAtLeast_spec _ _ _ hf).1
  · have hnone : totalBounds (vertices gdf) = none := by
      cases h : totalBounds (vertices gdf) with
      | none => rfl
      | some b => exact absurd ⟨b, h⟩ hb
    unfold calculateOptimalScaleFromZoom
    rw [hnone]
    split_ifs <;> decide

/-! ### Claim theorems: scale selector -/

/-- C3: for a non-empty collection (witnessed by its resolved bounds), the
selected scale is a catalog member, is at most any catalog entry that
meets the required value `max((w × 1.3)/0.22, (h × 1.3)/0.18)`, and either
meets the required value itself or is the catalog maximum 500000 because
no entry suffices; moreover for EVERY collection (empty included) the
returned value is a member of the catalog. -/
theorem scale_selector_postcondition (fc : List Feature) (b : Bounds)
    (hb : totalBounds (vertices fc) = some b) :
    calculateOptimalScaleFromZoom fc ∈ professionalScales ∧
    (∀ s ∈ professionalScales, requiredScaleClaimed b ≤ (s : ℚ) →
      calculateOptimalScaleFromZoom fc ≤ s) ∧
    (requiredScaleClaimed b ≤ ((calculateOptimalScaleFromZoom fc : ℤ) : ℚ) ∨
      (calculateOptimalScaleFromZoom fc = 500000 ∧
       ∀ s ∈ professionalScales, (s : ℚ) < requiredScaleClaimed b)) ∧
    (∀ gdf : List Feature,
      calculateOptimalScaleFromZoom gdf ∈ professionalScales) := by
  have hpw : professionalScales.Pairwise (· ≤ ·) := by decide
  rw [calcScale_eq fc b hb]
  cases hf : firstAtLeast (requiredScaleClaimed b) professionalScales with
  | some s =>
    exact ⟨(firstAtLeast_spec _ _ _ hf).1,
      fun t ht hreqt => firstAtLeast_min _ _ hpw s hf t ht hreqt,
      Or.inl (firstAtLeast_spec _ _ _ hf).2,
      scale_mem_catalog⟩
  | none =>
    refine ⟨by decide, fun t ht hreqt => ?_,
      Or.inr ⟨rfl, firstAtLeast_none _ _ hf⟩,
      scale_mem_catalog⟩
    exact absurd hreqt (not_le.mpr (firstAtLeast_none _ _ hf t ht))

/-- C3 witness example collection: a single feature spanning 500 m × 300 m
(the spec's worked example). -/
def fcScaleEx : List Feature := [Feature.mk [] [(0, 0), (500, 300)]]

/-- C3 witness bounds. -/
def bScaleEx : Bounds := ⟨0, 0, 500, 300⟩

/-- C3 witness: the 500 m × 300 m extent resolves, and every postcondition
of the scale selector holds there (the selected scale is 5000, the
smallest catalog entry ≥ max(650/0.22, 390/0.18) ≈ 2955). -/
theorem scale_selector_postcondition_witness :
    totalBounds (vertices fcScaleEx) = some bScaleEx ∧
    (calculateOptimalScaleFromZoom fcScaleEx ∈ professionalScales ∧
     (∀ s ∈ professionalScales, requiredScaleClaimed bScaleEx ≤ (s : ℚ) →
       calculateOptimalScaleFromZoom fcScaleEx ≤ s) ∧
     (requiredScaleClaimed bScaleEx ≤
         ((calculateOptimalScaleFromZoom fcScaleEx : ℤ) : ℚ) ∨
       (calculateOptimalScaleFromZoom fcScaleEx = 500000 ∧
        ∀ s ∈ professionalScales,
          (s : ℚ) < requiredScaleClaimed bScaleEx)) ∧
     (∀ gdf : List Feature,
       calculateOptimalScaleFromZoom gdf ∈ professionalScales)) := by
  have hb : totalBounds (vertices fcScaleEx) = some bScaleEx := by decide
  exact ⟨hb, scale_selector_postcondition fcScaleEx bScaleEx hb⟩

/-! ### Claim theorems: viewport containment -/

theorem dims_dominate (fw fh sw sh : ℚ) (hfw : sw ≤ fw) (hfh : sh ≤ fh)
    (hfhpos : 0 < fh) :
    sw ≤ (if (22 : ℚ) / 18 < fw / fh then (fw, fw / ((22 : ℚ) / 18))
          else (fh * ((22 : ℚ) / 18), fh)).1 ∧
    sh ≤ (if (22 : ℚ) / 18 < fw / fh then (fw, fw / ((22 : ℚ) / 18))
          else (fh * ((22 : ℚ) / 18), fh)).2 := by
  have har : (0 : ℚ) < 22 / 18 := by norm_num
  split_ifs with hc
  · refine ⟨hfw, ?_⟩
    have h1 : (22 / 18 : ℚ) * fh < fw := (lt_div_iff₀ hfhpos).mp hc
    have h2 : fh < fw / ((22 : ℚ) / 18) :=
      (lt_div_iff₀ har).mpr (by rw [mul_comm]; exact h1)
    exact le_trans hfh (le_of_lt h2)
  · push_neg at hc
    have h1 : fw ≤ 22 / 18 * fh := (div_le_iff₀ hfhpos).mp hc
    exact ⟨le_trans hfw (by linarith [mul_comm ((22 : ℚ) / 18) fh]), hfh⟩

/-- C1: for every collection whose extent resolves (non-empty geometry)
and every positive target scale denominator, the viewport returned by
`_calculate_zoom_bounds_for_optimal_scale` fully contains the collection's
total-bounds box, with nonnegative margin on all four sides. -/
theorem viewport_containment (fc : List Feature) (scale : ℚ) (b v : Bounds)
    (hs : 0 < scale) (hb : totalBounds (vertices fc) = some b)
    (hv : calculateZoomBoundsForOptimalScale fc scale = some v) :
    (v.minX ≤ b.minX ∧ v.minY ≤ b.minY ∧
     b.maxX ≤ v.maxX ∧ b.maxY ≤ v.maxY) ∧
    (0 ≤ b.minX - v.minX ∧ 0 ≤ b.minY - v.minY ∧
     0 ≤ v.maxX - b.maxX ∧ 0 ≤ v.maxY - b.maxY) := by
  have hwf := totalBounds_wf (vertices fc) b hb
  have h0sw : 0 ≤ b.maxX - b.minX := by linarith [hwf.1]
  have h0sh : 0 ≤ b.maxY - b.minY := by linarith [hwf.2]
  have hfw : b.maxX - b.minX ≤
      max (scale * (22 / 100)) ((b.maxX - b.minX) * (12 / 10)) :=
    le_trans (by linarith) (le_max_right _ _)
  have hfh : b.maxY - b.minY ≤
      max (scale * (18 / 100)) ((b.maxY - b.minY) * (12 / 10)) :=
    le_trans (by linarith) (le_max_right _ _)
  have hfwpos : 0 <
      max (scale * (22 / 100)) ((b.maxX - b.minX) * (12 / 10)) :=
    lt_of_lt_of_le (mul_pos hs (by norm_num)) (le_max_left _ _)
  have hfhpos : 0 <
      max (scale * (18 / 100)) ((b.maxY - b.minY) * (12 / 10)) :=
    lt_of_lt_of_le (mul_pos hs (by norm_num)) (le_max_left _ _)
  obtain ⟨hd1, hd2⟩ := dims_dominate
    (max (scale * (22 / 100)) ((b.maxX - b.minX) * (12 / 10)))
    (max (scale * (18 / 100)) ((b.maxY - b.minY) * (12 / 10)))
    (b.maxX - b.minX) (b.maxY - b.minY) hfw hfh hfhpos
  unfold calculateZoomBoundsForOptimalScale at hv
  rw [hb] at hv
  dsimp only at hv
  rw [Option.some.injEq] at hv
  subst hv
  refine ⟨⟨?_, ?_, ?_, ?_⟩, ?_, ?_, ?_, ?_⟩ <;>
    dsimp only <;> linarith [hd1, hd2]

/-- C1 witness collection: a single feature spanning 100 m × 50 m. -/
def fcViewportEx : List Feature := [Feature.mk [] [(0, 0), (100, 50)]]

/-- C1 witness extent bounds. -/
def bViewportEx : Bounds := ⟨0, 0, 100, 50⟩

/-- C1 witness viewport at scale 1:5000: 1100 m × 900 m centered on
(50, 25). -/
def vViewportEx : Bounds := ⟨-500, -425, 600, 475⟩

/-- C1 witness: at scale 5000 the computed viewport contains the
100 m × 50 m extent with nonnegative margins on all sides. -/
theorem viewport_containment_witness :
    (0 : ℚ) < 5000 ∧
    totalBounds (vertices fcViewportEx) = some bViewportEx ∧
    calculateZoomBoundsForOptimalScale fcViewportEx 5000 =
      some vViewportEx ∧
    ((vViewportEx.minX ≤ bViewportEx.minX ∧
      vViewportEx.minY ≤ bViewportEx.minY ∧
      bViewportEx.maxX ≤ vViewportEx.maxX ∧
      bViewportEx.maxY ≤ vViewportEx.maxY) ∧
     (0 ≤ bViewportEx.minX - vViewportEx.minX ∧
      0 ≤ bViewportEx.minY - vViewportEx.minY ∧
      0 ≤ vViewportEx.maxX - bViewportEx.maxX ∧
      0 ≤ vViewportEx.maxY - bViewportEx.maxY)) := by
  have hb : totalBounds (vertices fcViewportEx) = some bViewportEx := by
    decide
  have hv : calculateZoomBoundsForOptimalScale fcViewportEx 5000 =
      some vViewportEx := by
    norm_num [calculateZoomBoundsForOptimalScale, fcViewportEx, vViewportEx,
      vertices, totalBounds, extendB, max_def, min_def]
  exact ⟨by norm_num, hb, hv,
    viewport_containment fcViewportEx 5000 bViewportEx vViewportEx
      (by norm_num) hb hv⟩

end MapGen
